import Mathlib

/-!
# Verification development for the book-export pipeline

Shallow embedding of the markdown-to-PDF/HTML export pipeline of the
repository (server routes, storage filename generation, and the
pandoc-oriented content transformer).  JavaScript strings are modelled as
`List Char` (one element per UTF-16 code unit; all inputs considered here
are in the basic plane, where code units and characters coincide).
JavaScript's optional / falsy semantics are modelled with `Option` plus
explicit truthiness helpers.
-/

set_option maxRecDepth 200000
set_option maxHeartbeats 2000000

namespace Book

/-- Convert a Lean string literal to the `List Char` representation used
throughout this development. -/
def str (s : String) : List Char := s.data

/-- JavaScript's `\s` character class (ECMAScript WhiteSpace plus
LineTerminator), as used by `String.prototype.trim`, the heading regex and
the line-trimming in the content transformer. -/
def jsWs (c : Char) : Bool :=
  c == ' ' || c == '\t' || c == '\n' || c == '\u000B' || c == '\u000C' || c == '\r' ||
  c == '\u00A0' || c == '\u1680' || ('\u2000' ≤ c && c ≤ '\u200A') || c == '\u2028' ||
  c == '\u2029' || c == '\u202F' || c == '\u205F' || c == '\u3000' || c == '\uFEFF'

/-- JavaScript's regex `.` (without the `s` flag): any character except the
four line terminators. -/
def jsDot (c : Char) : Bool :=
  !(c == '\n' || c == '\r' || c == '\u2028' || c == '\u2029')

/-- `lsw pat l`: does `l` start with `pat`?  (JS `String.prototype.startsWith`.) -/
def lsw : List Char → List Char → Bool
  | [], _ => true
  | _ :: _, [] => false
  | p :: ps, c :: cs => p == c && lsw ps cs

/-- Remove trailing JS whitespace (right half of `String.prototype.trim`). -/
def dropRightWs : List Char → List Char
  | [] => []
  | c :: cs =>
    match dropRightWs cs with
    | [] => if jsWs c then [] else [c]
    | d :: ds => c :: d :: ds

/-- JavaScript `String.prototype.trim`: strip leading and trailing `\s`. -/
def jsTrim (l : List Char) : List Char := dropRightWs (l.dropWhile jsWs)

/-- JavaScript `text.split('\n')`. -/
def splitNl : List Char → List (List Char)
  | [] => [[]]
  | c :: cs =>
    if c == '\n' then [] :: splitNl cs
    else
      match splitNl cs with
      | [] => [[c]]
      | line :: restLines => (c :: line) :: restLines

/-- Number of occurrences of `pat` in `l` (one per starting position at
which `pat` is a prefix of the remaining suffix). -/
def countSub (pat : List Char) : List Char → Nat
  | [] => if lsw pat [] then 1 else 0
  | c :: cs => (if lsw pat (c :: cs) then 1 else 0) + countSub pat cs

/-! ## Structural Analyzer (`generateTableOfContents`, src/server/routes.ts
lines 350-364, identical in the project-server variant)

The source tests each line of `markdown.split('\n')` against the regex
`/^(#{1,6})\s+(.+)$/` and pushes `{title, level}` for each match.  The
regex semantics (greedy with backtracking, `$` at true end of input only,
`.` excluding line terminators) unfold to: the line must begin with `k`
leading `#` characters, `1 ≤ k ≤ 6` (a seventh leading `#` makes every
backtracking attempt place a `#` where `\s` is required, so the line
fails); next must come at least one `\s` character; `\s+` then takes the
longest whitespace prefix that still leaves a non-empty remainder, and the
remainder — matched by `(.+)$` — must contain no line terminator. -/

/-- One line versus the heading regex `^(#{1,6})\s+(.+)$`; returns
`some (level, title)` on a match. -/
def matchHeading (line : List Char) : Option (Nat × List Char) :=
  let k := (line.takeWhile (· == '#')).length
  let rest := line.dropWhile (· == '#')
  let run := (rest.takeWhile jsWs).length
  if 1 ≤ k ∧ k ≤ 6 ∧ 1 ≤ run ∧ 2 ≤ rest.length then
    let title := rest.drop (min run (rest.length - 1))
    if title.all jsDot then some (k, title) else none
  else none

/-- `generateTableOfContents`: forEach-push loop over the split lines,
collecting one `(level, title)` pair per matching line. -/
def generateTableOfContents (markdown : List Char) : List (Nat × List Char) :=
  (splitNl markdown).foldl
    (fun acc line =>
      match matchHeading line with
      | some p => acc ++ [p]
      | none => acc) []

/-! ## Data model (src/shared schema + project server)

`Project` carries the fields the export pipeline reads.  Optional JS
fields (`coverConfig` and its members) become `Option`; the JS `||`
fallback and `if (x)` truthiness treat both `undefined` and the empty
string as falsy. -/

structure CoverConfig where
  title : Option (List Char)
  subtitle : Option (List Char)
  author : Option (List Char)

structure Project where
  title : List Char
  author : List Char
  content : List Char
  theme : List Char
  columnLayout : List Char
  coverConfig : Option CoverConfig

/-- Export options object as read by the project-server export route;
absent fields are `none` (JS `undefined`). -/
structure ExportOptions where
  includeTOC : Option Bool
  includeCover : Option Bool

/-- JS truthiness of an optional boolean (`undefined` is falsy). -/
def truthy : Option Bool → Bool
  | some b => b
  | none => false

/-- JS truthiness of an optional string (`undefined` and `""` are falsy). -/
def truthyStr : Option (List Char) → Bool
  | some s => !s.isEmpty
  | none => false

/-- JS `a || b` for an optional string `a` with fallback `b`. -/
def jsOrStr (a : Option (List Char)) (b : List Char) : List Char :=
  match a with
  | some s => if s.isEmpty then b else s
  | none => b

/-- `coverConfig?.title || project.title`. -/
def covTitle (p : Project) : List Char :=
  jsOrStr (p.coverConfig.bind (·.title)) p.title

/-- `coverConfig?.author || project.author`. -/
def covAuthor (p : Project) : List Char :=
  jsOrStr (p.coverConfig.bind (·.author)) p.author

/-! ## Typesetting Content Transformer (`generatePDFWithPandoc`,
project-server variant, body-processing loop lines 337-366)

The loop walks `content.split('\n')`, trims each line, and keeps a single
boolean flag `afterHeading`. -/

/-- The `\lettrine{first}{next two}rest` emission for a drop-capped line. -/
def lettrineOf (line : List Char) : List Char :=
  str "\\lettrine\x7b" ++ line.take 1 ++ str "\x7d\x7b" ++
    (line.drop 1).take 2 ++ str "\x7d" ++ (line.drop 1).drop 2

/-- The body-processing loop of `generatePDFWithPandoc`: current line list,
current index `i`, current `afterHeading` flag; returns the emitted text. -/
def processLines : List (List Char) → Nat → Bool → List Char
  | [], _, _ => []
  | l :: rest, i, afterHeading =>
    let line := jsTrim l
    if lsw (str "# ") line then
      (if 0 < i then str "\n\\newpage\n\n" else []) ++ line ++ str "\n\n" ++
        processLines rest (i + 1) true
    else if lsw (str "#") line then
      line ++ str "\n\n" ++ processLines rest (i + 1) true
    else if line.isEmpty then
      str "\n" ++ processLines rest (i + 1) afterHeading
    else
      if afterHeading && 0 < line.length && !lsw (str "-") line && !lsw (str "*") line then
        lettrineOf line ++ str "\n\n" ++ processLines rest (i + 1) false
      else
        line ++ str "\n\n" ++
          processLines rest (i + 1)
            (if !lsw (str "-") line && !lsw (str "*") line then false else afterHeading)

/-- YAML metadata header emitted by `generatePDFWithPandoc` before the
processed body (lines 313-334). -/
def pandocHeader (p : Project) (options : ExportOptions) : List Char :=
  str "---\n" ++
  str "title: \"" ++ covTitle p ++ str "\"\n" ++
  (if truthyStr (p.coverConfig.bind (·.author)) then
    str "author: \"" ++ (p.coverConfig.bind (·.author)).getD [] ++ str "\"\n" else []) ++
  (if truthyStr (p.coverConfig.bind (·.subtitle)) then
    str "subtitle: \"" ++ (p.coverConfig.bind (·.subtitle)).getD [] ++ str "\"\n" else []) ++
  str "documentclass: book\n" ++
  str "geometry: margin=1in\n" ++
  str "fontsize: 12pt\n" ++
  str "linestretch: 1.2\n" ++
  str "header-includes: |\n" ++
  str "  \\usepackage\x7blettrine\x7d\n" ++
  str "  \\usepackage\x7bmicrotype\x7d\n" ++
  str "  \\usepackage\x7btgtermes\x7d\n" ++
  (if truthy options.includeTOC then str "toc: true\ntoc-depth: 3\n" else []) ++
  str "---\n\n"

/-- Full markdown text handed to pandoc: metadata header followed by the
transformed body (`generatePDFWithPandoc` before any file I/O). -/
def pandocMarkdown (p : Project) (options : ExportOptions) : List Char :=
  pandocHeader p options ++ processLines (splitNl p.content) 0 false

/-! ## Theme & Layout Resolver (src/server/routes.ts lines 366-398 and 299-301)

`getThemeStyles` takes no theme parameter: the single fixed style block is
returned for every manuscript, so theme resolution ignores the stored
theme identifier entirely. -/

/-- The fixed style block returned by `getThemeStyles()` (exact template
literal, braces written with escapes). -/
def getThemeStyles : List Char :=
  str "\n    body \x7b \n      margin: 0; \n      padding: 0; \n      line-height: 1.6; \n      color: #000; \n      background: #fff; \n      font-family: \x27Georgia\x27, serif; \n      font-size: 12pt; \n    \x7d\n    h1, h2, h3, h4, h5, h6 \x7b \n      margin: 1.5em 0 0.5em; \n      font-weight: bold; \n      color: #333;\n    \x7d\n    h1 \x7b font-size: 24pt; text-align: center; page-break-before: always; \x7d\n    h2 \x7b font-size: 18pt; margin-top: 2em; \x7d\n    h3 \x7b font-size: 16pt; \x7d\n    h4 \x7b font-size: 14pt; \x7d\n    p \x7b margin: 0.75em 0; text-align: justify; \x7d\n    ul, ol \x7b margin: 0.75em 0; padding-left: 2em; \x7d\n    .drop-cap \x7b\n      float: left;\n      font-size: 48pt;\n      line-height: 40pt;\n      padding-right: 8pt;\n      margin-top: 4pt;\n      font-weight: bold;\n    \x7d\n  "

/-- Theme resolution as performed by `generateBookHTML`: the theme
identifier is never consulted (`getThemeStyles()` has no parameter). -/
def themeStylesFor (_theme : List Char) : List Char := getThemeStyles

/-- `columnLayout === 'double' ? 'columns: 2; column-gap: 2rem;' : ''`. -/
def layoutStyles (columnLayout : List Char) : List Char :=
  if columnLayout = str "double" then str "columns: 2; column-gap: 2rem;" else []

/-! ## Document Assembler (`generateBookHTML`, src/server/routes.ts lines
290-348, identical in the project-server variant)

The external markdown renderer `marked` is a third-party library (not part
of this repository), so the assembler is parameterised by it; everything
else is the template literal transcribed exactly (braces and apostrophes
escaped). -/

/-- Decimal rendering of `item.level * 20` in the TOC entry style. -/
def natStr (n : Nat) : List Char := (Nat.repr n).data

/-- One `<li>` of the table-of-contents section. -/
def tocItemHtml (item : Nat × List Char) : List Char :=
  str "\n            <li style=\"margin-left: " ++ natStr (item.1 * 20) ++
    str "px;\">\n                " ++ item.2 ++ str "\n            </li>\n            "

/-- `generateBookHTML`: assembles the full HTML document from the project,
the inclusion flags and the rendered body.  Transcribed template literal;
the conditional cover and TOC sections appear inline exactly as in the
source. -/
def generateBookHTML (marked : List Char → List Char) (project : Project)
    (options : ExportOptions) : List Char :=
  str "\n<!DOCTYPE html>\n<html>\n<head>\n    <meta charset=\"UTF-8\">\n    <title>" ++
  project.title ++
  str "</title>\n    <style>\n        " ++
  themeStylesFor project.theme ++
  str "\n        .content \x7b " ++ layoutStyles project.columnLayout ++
  str " \x7d\n        .cover-page \x7b page-break-after: always; text-align: center; padding: 2in; \x7d\n        .toc-page \x7b page-break-after: always; \x7d\n        .content \x7b page-break-before: always; \x7d\n        h1 \x7b page-break-before: always; \x7d\n        img \x7b max-width: 100%; height: auto; \x7d\n        table \x7b width: 100%; border-collapse: collapse; break-inside: auto; \x7d\n        td, th \x7b border: 1px solid #000; padding: 8px; \x7d\n    </style>\n</head>\n<body>\n    " ++
  (if truthy options.includeCover then
    str "\n    <div class=\"cover-page\">\n        <h1>" ++ covTitle project ++
    str "</h1>\n        " ++
    (if truthyStr (project.coverConfig.bind (·.subtitle)) then
      str "<h2>" ++ (project.coverConfig.bind (·.subtitle)).getD [] ++ str "</h2>"
    else []) ++
    str "\n        <p>" ++ covAuthor project ++ str "</p>\n    </div>\n    "
  else []) ++
  str "\n    \n    " ++
  (if truthy options.includeTOC then
    str "\n    <div class=\"toc-page\">\n        <h2>Table of Contents</h2>\n        <ul>\n            " ++
    ((generateTableOfContents project.content).map tocItemHtml).flatten ++
    str "\n        </ul>\n    </div>\n    "
  else []) ++
  str "\n    \n    " ++
  str "<div class=\"content\">\n        " ++
  marked project.content ++
  str "\n    </div>\n</body>\n</html>\n  "

/-- The cover section as emitted when `includeCover` is truthy. -/
def coverSectionHtml (project : Project) : List Char :=
  str "\n    <div class=\"cover-page\">\n        <h1>" ++ covTitle project ++
  str "</h1>\n        " ++
  (if truthyStr (project.coverConfig.bind (·.subtitle)) then
    str "<h2>" ++ (project.coverConfig.bind (·.subtitle)).getD [] ++ str "</h2>"
  else []) ++
  str "\n        <p>" ++ covAuthor project ++ str "</p>\n    </div>\n    "

/-- The table-of-contents section as emitted when `includeTOC` is truthy. -/
def tocSectionHtml (project : Project) : List Char :=
  str "\n    <div class=\"toc-page\">\n        <h2>Table of Contents</h2>\n        <ul>\n            " ++
  ((generateTableOfContents project.content).map tocItemHtml).flatten ++
  str "\n        </ul>\n    </div>\n    "

/-- Everything of the assembled document before the cover slot. -/
def htmlHeadPart (project : Project) : List Char :=
  str "\n<!DOCTYPE html>\n<html>\n<head>\n    <meta charset=\"UTF-8\">\n    <title>" ++
  project.title ++
  str "</title>\n    <style>\n        " ++
  themeStylesFor project.theme ++
  str "\n        .content \x7b " ++ layoutStyles project.columnLayout ++
  str " \x7d\n        .cover-page \x7b page-break-after: always; text-align: center; padding: 2in; \x7d\n        .toc-page \x7b page-break-after: always; \x7d\n        .content \x7b page-break-before: always; \x7d\n        h1 \x7b page-break-before: always; \x7d\n        img \x7b max-width: 100%; height: auto; \x7d\n        table \x7b width: 100%; border-collapse: collapse; break-inside: auto; \x7d\n        td, th \x7b border: 1px solid #000; padding: 8px; \x7d\n    </style>\n</head>\n<body>\n    "

/-- The fixed filler between the cover slot and the TOC slot (and between
the TOC slot and the body). -/
def sectionGap : List Char := str "\n    \n    "

/-- The always-present body section plus the document tail. -/
def contentSectionHtml (bodyHtml : List Char) : List Char :=
  str "<div class=\"content\">\n        " ++ bodyHtml ++
  str "\n    </div>\n</body>\n</html>\n  "

/-! ## Storage filename generation (`generateFilename`, book-server storage)

lowercase, then delete every character outside `[a-z0-9\s-]`, then
replace each whitespace run by one hyphen, then collapse hyphen runs,
then trim.  `Char.toLower` models JS `toLowerCase`
(identical on ASCII; outside ASCII both sides produce characters that the
following filter deletes). -/

/-- Character class kept by the first `replace` (complement of
`[^a-z0-9\s-]`). -/
def keepChar (c : Char) : Bool :=
  ('a' ≤ c && c ≤ 'z') || ('0' ≤ c && c ≤ '9') || jsWs c || c == '-'

/-- Global replacement of each maximal run of `p`-characters by the single
character `r` (models `replace(/X+/g, r)`). -/
def squashRuns (p : Char → Bool) (r : Char) : List Char → List Char
  | [] => []
  | [c] => if p c then [r] else [c]
  | c :: d :: cs =>
    if p c then
      if p d then squashRuns p r (d :: cs)
      else r :: squashRuns p r (d :: cs)
    else c :: squashRuns p r (d :: cs)

/-- `DatabaseStorage.generateFilename`. -/
def generateFilename (title : List Char) : List Char :=
  jsTrim (squashRuns (· == '-') '-' (squashRuns jsWs '-'
    ((title.map Char.toLower).filter keepChar)))

/-! ## Export route artifact filenames (project server, export route)

`Content-Disposition: attachment; filename="${project.title}.pdf"` (and
`.html`): the raw stored title with an extension appended. -/

def exportPdfFilename (title : List Char) : List Char := title ++ str ".pdf"

def exportHtmlFilename (title : List Char) : List Char := title ++ str ".html"

/-! ## Export route option handling (project server, export route)

`const { format = "pdf", pageSize = "a4", options = {} } = req.body`;
destructuring defaults fire only for absent (`undefined`) fields. -/

structure ExportRequestBody where
  format : Option (List Char)
  pageSize : Option (List Char)
  options : Option ExportOptions

def effFormat (b : ExportRequestBody) : List Char := b.format.getD (str "pdf")

def effPageSize (b : ExportRequestBody) : List Char := b.pageSize.getD (str "a4")

/-- The `options` object reaching `generateBookHTML` and
`generatePDFWithPandoc`; an omitted `options` field becomes `{}`, whose
member reads all yield `undefined`. -/
def effOptions (b : ExportRequestBody) : ExportOptions :=
  b.options.getD ⟨none, none⟩

/-! ## Temporary file naming (`generatePDFWithPandoc`, lines 368-371)

`path.join('/tmp', `book-${Date.now()}.md`)` and likewise `.pdf`; the two
`Date.now()` calls are modelled as explicit millisecond inputs.  No random
component enters the name. -/

def tempMarkdownFile (nowMs : Nat) : List Char :=
  str "/tmp/book-" ++ natStr nowMs ++ str ".md"

def tempPdfFile (nowMs : Nat) : List Char :=
  str "/tmp/book-" ++ natStr nowMs ++ str ".pdf"

/-! ## Temporary-file lifecycle (`generatePDFWithPandoc`, lines 373-398)

The try/catch around write → exec → read → unlink → unlink, with the catch
block re-deleting whatever still exists and swallowing its own failures
before rethrowing the original error.  Fallible operations are driven by a
`PandocEnv` of outcome flags; the filesystem state tracks existence of the
two temporary files.  Modelling choices: a failed `writeFileSync` creates
no file, a failed `unlinkSync` leaves the file in place, and a failed
pandoc run may or may not have produced a partial output file
(`execPartialPdf`). -/

structure TempFS where
  mdExists : Bool
  pdfExists : Bool
deriving DecidableEq, Repr

inductive PandocError where
  | writeFail
  | execFail
  | readFail
  | unlinkFail
deriving DecidableEq, Repr

structure PandocEnv where
  writeOk : Bool
  execOk : Bool
  execPartialPdf : Bool
  readOk : Bool
  unlinkMdOk : Bool
  unlinkPdfOk : Bool
  cleanupUnlinkMdOk : Bool
  cleanupUnlinkPdfOk : Bool
deriving DecidableEq, Repr

/-- The catch-block cleanup: `try { if (existsSync(md)) unlinkSync(md);
if (existsSync(pdf)) unlinkSync(pdf); } catch (cleanupError) {}`.
A throw from the first unlink skips the second; every throw is swallowed. -/
def catchCleanup (e : PandocEnv) (fs : TempFS) : TempFS :=
  if fs.mdExists then
    if e.cleanupUnlinkMdOk then
      if fs.pdfExists then
        if e.cleanupUnlinkPdfOk then ⟨false, false⟩ else ⟨false, true⟩
      else ⟨false, false⟩
    else fs
  else
    if fs.pdfExists then
      if e.cleanupUnlinkPdfOk then ⟨false, false⟩ else fs
    else fs

/-- The whole temporary-file lifecycle of `generatePDFWithPandoc`: result
(success or the error of the first failing step) together with the final
filesystem state. -/
def pandocExportRun (e : PandocEnv) : Except PandocError Unit × TempFS :=
  if !e.writeOk then
    (Except.error PandocError.writeFail, catchCleanup e ⟨false, false⟩)
  else if !e.execOk then
    (Except.error PandocError.execFail, catchCleanup e ⟨true, e.execPartialPdf⟩)
  else if !e.readOk then
    (Except.error PandocError.readFail, catchCleanup e ⟨true, true⟩)
  else if !e.unlinkMdOk then
    (Except.error PandocError.unlinkFail, catchCleanup e ⟨true, true⟩)
  else if !e.unlinkPdfOk then
    (Except.error PandocError.unlinkFail, catchCleanup e ⟨false, true⟩)
  else
    (Except.ok (), ⟨false, false⟩)

/-- Decidable equality for lifecycle results. -/
instance : DecidableEq (Except PandocError Unit) := fun a b =>
  match a, b with
  | Except.ok (), Except.ok () => isTrue rfl
  | Except.ok (), Except.error _ => isFalse (fun h => Except.noConfusion h)
  | Except.error _, Except.ok () => isFalse (fun h => Except.noConfusion h)
  | Except.error e, Except.error f =>
    if h : e = f then isTrue (by rw [h])
    else isFalse (fun hh => h (by injection hh))

/-- Fixed sample manuscript used by the concrete evaluations below. -/
def sampleProject : Project :=
  ⟨str "My Book", str "An Author", str "# One\n\nHello\n\n# Two\n\nWorld",
   str "modern", str "single", none⟩

/-- Stand-in for the external markdown renderer in concrete evaluations. -/
def sampleMarked : List Char → List Char := fun _ => str "<p>BODY</p>"

/-- Characters that can appear in a sanitizer output: lowercase ASCII
letters, digits, and the hyphen. -/
def fnChar (c : Char) : Bool :=
  ('a' ≤ c && c ≤ 'z') || ('0' ≤ c && c ≤ '9') || c == '-'

/-! ## Helper lemmas -/

theorem tocFold_eq (ls : List (List Char)) :
    ∀ acc : List (Nat × List Char),
      ls.foldl
        (fun acc line =>
          match matchHeading line with
          | some p => acc ++ [p]
          | none => acc) acc
        = acc ++ ls.filterMap matchHeading := by
  induction ls with
  | nil => intro acc; simp
  | cons l ls ih =>
    intro acc
    simp only [List.foldl_cons, List.filterMap_cons]
    cases h : matchHeading l with
    | none => simp only [h]; exact ih acc
    | some p => simp only [h]; rw [ih (acc ++ [p]), List.append_assoc]; rfl

theorem length_filterMap_matchHeading (ls : List (List Char)) :
    (ls.filterMap matchHeading).length
      = ls.countP (fun l => (matchHeading l).isSome) := by
  induction ls with
  | nil => rfl
  | cons l ls ih =>
    cases h : matchHeading l <;>
      simp [List.filterMap_cons, h, List.countP_cons, ih]

theorem dropRightWs_cons_of_not_ws (c : Char) (cs : List Char) (h : jsWs c = false) :
    dropRightWs (c :: cs) = c :: dropRightWs cs := by
  simp only [dropRightWs]
  cases hd : dropRightWs cs with
  | nil => simp [h]
  | cons d ds => rfl

theorem jsTrim_cons_of_not_ws (c : Char) (cs : List Char) (h : jsWs c = false) :
    jsTrim (c :: cs) = c :: dropRightWs cs := by
  simp only [jsTrim, List.dropWhile_cons, h]
  exact dropRightWs_cons_of_not_ws c cs h

theorem lsw_hash_space_false (l : List Char) (h : lsw (str "#") l = false) :
    lsw (str "# ") l = false := by
  cases l with
  | nil => rfl
  | cons c cs =>
    have hc : ('#' == c) = false := by
      by_contra hb
      rw [Bool.not_eq_false] at hb
      simp [lsw, str, hb] at h
    simp [lsw, str, hc]

theorem matchHeading_head_hash (c : Char) (cs : List Char)
    (h : (matchHeading (c :: cs)).isSome = true) : c = '#' := by
  by_contra hne
  have hb : (c == '#') = false := by simpa using hne
  have : matchHeading (c :: cs) = none := by
    simp [matchHeading, List.takeWhile_cons, hb]
  rw [this] at h
  simp at h

/-! ## Claim C3: Structural Analyzer -/

/-- C3: for every markdown text the Structural Analyzer returns exactly one
`(level, title)` pair per line matching the heading regex, in order of
appearance (the push loop equals `filterMap` over the split lines);
its output length equals the count of matching lines; and it is a pure
function of the text, so re-running it on unchanged text yields identical
output. -/
theorem structuralAnalyzer_spec :
    (∀ md : List Char,
      generateTableOfContents md = (splitNl md).filterMap matchHeading) ∧
    (∀ md : List Char,
      (generateTableOfContents md).length
        = (splitNl md).countP (fun l => (matchHeading l).isSome)) ∧
    (∀ md : List Char, generateTableOfContents md = generateTableOfContents md) := by
  have key : ∀ md : List Char,
      generateTableOfContents md = (splitNl md).filterMap matchHeading := by
    intro md
    simp only [generateTableOfContents]
    rw [tocFold_eq (splitNl md) []]
    rfl
  refine ⟨key, ?_, fun md => rfl⟩
  intro md
  rw [key md]
  exact length_filterMap_matchHeading (splitNl md)

/-! ## Claim C8: Theme & Layout Resolver -/

/-- C8: theme resolution never fails and returns the same non-empty style
block for every identifier (the source `getThemeStyles()` ignores the
identifier), so resolution of an unknown identifier equals resolution of
the default identifier `modern`; the content-flow directive is the
two-column declaration with explicit gap exactly for `double` and empty
otherwise. -/
theorem themeLayout_spec :
    (∀ t : List Char, themeStylesFor t = themeStylesFor (str "modern")) ∧
    (∀ t : List Char, themeStylesFor t ≠ []) ∧
    (∀ l : List Char, l ≠ str "double" → layoutStyles l = []) ∧
    (∀ l : List Char,
      layoutStyles l = str "columns: 2; column-gap: 2rem;" ↔ l = str "double") := by
  refine ⟨fun t => rfl, fun t => ?_, ?_, ?_⟩
  · show getThemeStyles ≠ []
    decide
  · intro l h
    simp [layoutStyles, h]
  · intro l
    constructor
    · intro h
      by_contra hne
      rw [layoutStyles, if_neg hne] at h
      exact (by decide : ¬ ([] : List Char) = str "columns: 2; column-gap: 2rem;") h
    · intro h
      simp [layoutStyles, h]

/-- C8 witness: resolution of the unknown identifier `gothic` equals the
default, and the `single` layout yields no column directive. -/
theorem themeLayout_spec_witness :
    themeStylesFor (str "gothic") = themeStylesFor (str "modern") ∧
    layoutStyles (str "single") = [] :=
  ⟨themeLayout_spec.1 (str "gothic"),
   themeLayout_spec.2.2.1 (str "single") (by decide)⟩

/-! ## Claim C9: temporary file naming -/

/-- C9: the temporary file paths of `generatePDFWithPandoc` are a pure
function of the `Date.now()` millisecond value with no random component;
two invocations observing the same millisecond produce identical paths
(evaluated here at 1700000000000), contradicting collision resistance. -/
theorem tempPaths_same_millisecond :
    tempMarkdownFile 1700000000000 = str "/tmp/book-1700000000000.md" ∧
    tempPdfFile 1700000000000 = str "/tmp/book-1700000000000.pdf" ∧
    (∀ t u : Nat, t = u →
      tempMarkdownFile t = tempMarkdownFile u ∧ tempPdfFile t = tempPdfFile u) := by
  refine ⟨by decide, by decide, ?_⟩
  intro t u h
  rw [h]
  exact ⟨rfl, rfl⟩

/-- C9 witness: two invocations in millisecond 1700000000000 share both
temporary paths. -/
theorem tempPaths_same_millisecond_witness :
    tempMarkdownFile 1700000000000 = tempMarkdownFile 1700000000000 ∧
    tempPdfFile 1700000000000 = tempPdfFile 1700000000000 :=
  tempPaths_same_millisecond.2.2 1700000000000 1700000000000 rfl

/-! ## Claim C1: page breaks before level-1 headings -/

/-- C1 counterexample: with body text `"x\n# A"` the only level-1 heading
(per the Structural Analyzer there is exactly one) is the first heading
encountered, yet the transformer emits a page-break directive before it,
because the guard is the line index, not "first heading encountered". -/
theorem pageBreak_counterexample :
    processLines (splitNl (str "x\n# A")) 0 false
      = str "x\n\n\n\\newpage\n\n# A\n\n" ∧
    countSub (str "\\newpage") (processLines (splitNl (str "x\n# A")) 0 false) = 1 ∧
    generateTableOfContents (str "x\n# A") = [(1, str "A")] := by
  refine ⟨by decide, by decide, by decide⟩

/-- C1 (amended): a page-break directive is emitted immediately before
every level-1 heading line except one standing on the very first line of
the body text — the guard is the line index `i > 0`, so a level-1 heading
preceded by any line (heading or not) always gets a page break, and only a
heading at line index 0 is exempt. -/
theorem pageBreak_by_line_index :
    (∀ (l : List Char) (rest : List (List Char)) (i : Nat) (after : Bool),
      lsw (str "# ") (jsTrim l) = true →
      processLines (l :: rest) i after
        = (if 0 < i then str "\n\\newpage\n\n" else []) ++ jsTrim l ++ str "\n\n"
          ++ processLines rest (i + 1) true) ∧
    processLines (splitNl (str "# A\n# B\nBody")) 0 false
      = str "# A\n\n\n\\newpage\n\n# B\n\n\\lettrine\x7bB\x7d\x7bod\x7dy\n\n" ∧
    countSub (str "\\newpage")
      (processLines (splitNl (str "# A\n# B\nBody")) 0 false) = 1 := by
  refine ⟨?_, by decide, by decide⟩
  intro l rest i after h
  simp [processLines, h]

/-- C1 witness: the general page-break equation applied to the single
level-1 heading line `"# A"` at positive line index 5. -/
theorem pageBreak_by_line_index_witness :
    processLines [str "# A"] 5 false
      = (if 0 < 5 then str "\n\\newpage\n\n" else []) ++ jsTrim (str "# A")
        ++ str "\n\n" ++ processLines [] 6 true :=
  pageBreak_by_line_index.1 (str "# A") [] 5 false (by decide)

/-! ## Claim C2: drop-capital annotation -/

/-- C2: the first non-empty, non-list line reached with the after-heading
flag set is emitted with its first character and the following two
characters wrapped in a `\lettrine` directive and the remainder unchanged,
after which the flag clears; blank lines and list lines preserve the flag;
on `"# Title\n\nHello world"` the directive fires exactly once, wrapping
`H` and `el` and leaving `lo world` unwrapped; and lines shorter than
three characters still fire on whatever characters exist. -/
theorem dropCap_spec :
    (∀ (l : List Char) (rest : List (List Char)) (i : Nat),
      jsTrim l ≠ [] →
      lsw (str "#") (jsTrim l) = false →
      lsw (str "-") (jsTrim l) = false →
      lsw (str "*") (jsTrim l) = false →
      processLines (l :: rest) i true
        = str "\\lettrine\x7b" ++ (jsTrim l).take 1 ++ str "\x7d\x7b"
          ++ ((jsTrim l).drop 1).take 2 ++ str "\x7d" ++ ((jsTrim l).drop 1).drop 2
          ++ str "\n\n" ++ processLines rest (i + 1) false) ∧
    (∀ (l : List Char) (rest : List (List Char)) (i : Nat) (after : Bool),
      jsTrim l = [] →
      processLines (l :: rest) i after = str "\n" ++ processLines rest (i + 1) after) ∧
    (∀ (l : List Char) (rest : List (List Char)) (i : Nat) (after : Bool),
      lsw (str "-") (jsTrim l) = true ∨ lsw (str "*") (jsTrim l) = true →
      lsw (str "#") (jsTrim l) = false →
      processLines (l :: rest) i after
        = jsTrim l ++ str "\n\n" ++ processLines rest (i + 1) after) ∧
    processLines (splitNl (str "# Title\n\nHello world")) 0 false
      = str "# Title\n\n\n\\lettrine\x7bH\x7d\x7bel\x7dlo world\n\n" ∧
    countSub (str "\\lettrine")
      (processLines (splitNl (str "# Title\n\nHello world")) 0 false) = 1 ∧
    processLines (splitNl (str "# T\nHi")) 0 false
      = str "# T\n\n\\lettrine\x7bH\x7d\x7bi\x7d\n\n" ∧
    processLines (splitNl (str "# T\nx")) 0 false
      = str "# T\n\n\\lettrine\x7bx\x7d\x7b\x7d\n\n" := by
  refine ⟨?_, ?_, ?_, by decide, by decide, by decide, by decide⟩
  · intro l rest i hne hh hd hs
    have hsp : lsw (str "# ") (jsTrim l) = false := lsw_hash_space_false _ hh
    have hlen : 0 < (jsTrim l).length := List.length_pos.mpr hne
    have hemp : (jsTrim l).isEmpty = false := by
      cases hjt : jsTrim l with
      | nil => exact absurd hjt hne
      | cons c cs => rfl
    simp [processLines, hsp, hh, hemp, hd, hs, hlen, lettrineOf]
  · intro l rest i after h
    simp [processLines, h, lsw, str]
  · intro l rest i after hls hh
    have hsp : lsw (str "# ") (jsTrim l) = false := lsw_hash_space_false _ hh
    have hemp : (jsTrim l).isEmpty = false := by
      cases hjt : jsTrim l with
      | nil =>
        rcases hls with h | h <;> (rw [hjt] at h; simp [lsw, str] at h)
      | cons c cs => rfl
    rcases hls with h | h
    · simp [processLines, hsp, hh, hemp, h]
    · simp [processLines, hsp, hh, hemp, h]

/-- C2 witness: the drop-cap equation applied to the concrete line
`"Hello world"` with the after-heading flag set. -/
theorem dropCap_spec_witness :
    processLines [str "Hello world"] 3 true
      = str "\\lettrine\x7b" ++ (jsTrim (str "Hello world")).take 1 ++ str "\x7d\x7b"
        ++ ((jsTrim (str "Hello world")).drop 1).take 2 ++ str "\x7d"
        ++ ((jsTrim (str "Hello world")).drop 1).drop 2
        ++ str "\n\n" ++ processLines [] 4 false :=
  dropCap_spec.1 (str "Hello world") [] 3 (by decide) (by decide) (by decide) (by decide)

/-! ## Claim C10: the transformer's notion of heading -/

/-- C10: every trimmed line whose first character is `#` is treated by the
transformer as a heading (emitted unchanged, flag armed), a strict
superset of the analyzer's regex headings (`#Title` and a 7-hash line are
transformer headings but not analyzer headings), while only lines starting
with `"# "` receive page-break treatment. -/
theorem transformerHeading_spec :
    (∀ l : List Char,
      (matchHeading l).isSome = true → lsw (str "#") (jsTrim l) = true) ∧
    (∀ (l : List Char) (rest : List (List Char)) (i : Nat) (after : Bool),
      lsw (str "#") (jsTrim l) = true → lsw (str "# ") (jsTrim l) = false →
      processLines (l :: rest) i after
        = jsTrim l ++ str "\n\n" ++ processLines rest (i + 1) true) ∧
    matchHeading (str "#Title") = none ∧
    matchHeading (str "####### x") = none ∧
    processLines [str "#Title", str "abc"] 0 false
      = str "#Title\n\n" ++ str "\\lettrine\x7ba\x7d\x7bbc\x7d\n\n" ∧
    processLines [str "####### x", str "abc"] 0 false
      = str "####### x\n\n" ++ str "\\lettrine\x7ba\x7d\x7bbc\x7d\n\n" ∧
    processLines [str "x", str "#A"] 0 false = str "x\n\n#A\n\n" := by
  refine ⟨?_, ?_, by decide, by decide, by decide, by decide, by decide⟩
  · intro l h
    cases l with
    | nil =>
      rw [(by decide : matchHeading [] = none)] at h
      simp at h
    | cons c cs =>
      have hc := matchHeading_head_hash c cs h
      subst hc
      rw [jsTrim_cons_of_not_ws '#' cs (by decide)]
      rfl
  · intro l rest i after hh hsp
    simp [processLines, hsp, hh]

/-- C10 witness: the analyzer heading `"## Sub"` is also a transformer
heading, and the other-heading equation applies to it. -/
theorem transformerHeading_spec_witness :
    lsw (str "#") (jsTrim (str "## Sub")) = true ∧
    processLines [str "## Sub"] 7 false
      = jsTrim (str "## Sub") ++ str "\n\n" ++ processLines [] 8 true :=
  ⟨transformerHeading_spec.1 (str "## Sub") (by decide),
   transformerHeading_spec.2.1 (str "## Sub") [] 7 false (by decide) (by decide)⟩

/-! ## Claim C4: export option defaults -/

/-- C4 counterexample: an export request omitting `options` yields an empty
options object whose absent `includeTOC`/`includeCover` members are falsy:
the pandoc document lacks the TOC directive and the assembled HTML lacks
the cover section, unlike the documented defaults includeTOC=true /
includeCover=true (shown alongside for contrast). -/
theorem exportDefaults_counterexample :
    effOptions ⟨none, none, none⟩ = ⟨none, none⟩ ∧
    pandocMarkdown sampleProject (effOptions ⟨none, none, none⟩)
      ≠ pandocMarkdown sampleProject ⟨some true, some true⟩ ∧
    countSub (str "toc: true")
      (pandocMarkdown sampleProject (effOptions ⟨none, none, none⟩)) = 0 ∧
    countSub (str "toc: true")
      (pandocMarkdown sampleProject ⟨some true, some true⟩) = 1 ∧
    countSub (str "<div class=\"cover-page\">")
      (generateBookHTML sampleMarked sampleProject (effOptions ⟨none, none, none⟩)) = 0 ∧
    countSub (str "<div class=\"cover-page\">")
      (generateBookHTML sampleMarked sampleProject ⟨some true, some true⟩) = 1 := by
  refine ⟨rfl, by decide, by decide, by decide, by decide, by decide⟩

/-- C4 (amended): `format` and `pageSize` default as documented (`pdf`,
`a4`) when absent, but an omitted `options` object behaves exactly as
includeTOC=false / includeCover=false for both rendering paths, because
the option members are read with plain truthiness tests. -/
theorem exportDefaults_amended :
    (∀ b : ExportRequestBody, b.format = none → effFormat b = str "pdf") ∧
    (∀ b : ExportRequestBody, b.pageSize = none → effPageSize b = str "a4") ∧
    (∀ p : Project,
      pandocMarkdown p (effOptions ⟨none, none, none⟩)
        = pandocMarkdown p ⟨some false, some false⟩) ∧
    (∀ (m : List Char → List Char) (p : Project),
      generateBookHTML m p (effOptions ⟨none, none, none⟩)
        = generateBookHTML m p ⟨some false, some false⟩) := by
  refine ⟨?_, ?_, fun p => rfl, fun m p => rfl⟩
  · intro b h
    simp [effFormat, h]
  · intro b h
    simp [effPageSize, h]

/-- C4 witness: the defaulting equations applied to the all-absent request
body. -/
theorem exportDefaults_amended_witness :
    effFormat ⟨none, none, none⟩ = str "pdf" ∧
    effPageSize ⟨none, none, none⟩ = str "a4" ∧
    pandocMarkdown sampleProject (effOptions ⟨none, none, none⟩)
      = pandocMarkdown sampleProject ⟨some false, some false⟩ :=
  ⟨exportDefaults_amended.1 ⟨none, none, none⟩ rfl,
   exportDefaults_amended.2.1 ⟨none, none, none⟩ rfl,
   exportDefaults_amended.2.2.1 sampleProject⟩

/-! ## Claim C5: Document Assembler sections -/

/-- C5: the assembled document always decomposes as head, optional cover
section, gap, optional TOC section, gap, body section and tail — the
cover section is present iff `includeCover` is truthy, the TOC section iff
`includeTOC` is truthy, the body section always, in that fixed order, with
the flags affecting nothing else; concretely, with both flags false the
document contains no cover or TOC opening tag and exactly one body opening
tag (and with both flags true, one of each); and the assembler is a pure
function of its inputs. -/
theorem assembler_spec :
    (∀ (m : List Char → List Char) (p : Project) (t c : Option Bool),
      generateBookHTML m p ⟨t, c⟩
        = htmlHeadPart p ++ (if truthy c then coverSectionHtml p else []) ++ sectionGap
          ++ (if truthy t then tocSectionHtml p else []) ++ sectionGap
          ++ contentSectionHtml (m p.content)) ∧
    countSub (str "<div class=\"cover-page\">")
      (generateBookHTML sampleMarked sampleProject ⟨some false, some false⟩) = 0 ∧
    countSub (str "<div class=\"toc-page\">")
      (generateBookHTML sampleMarked sampleProject ⟨some false, some false⟩) = 0 ∧
    countSub (str "<div class=\"content\">")
      (generateBookHTML sampleMarked sampleProject ⟨some false, some false⟩) = 1 ∧
    countSub (str "<div class=\"cover-page\">")
      (generateBookHTML sampleMarked sampleProject ⟨some true, some true⟩) = 1 ∧
    countSub (str "<div class=\"toc-page\">")
      (generateBookHTML sampleMarked sampleProject ⟨some true, some true⟩) = 1 ∧
    countSub (str "<div class=\"content\">")
      (generateBookHTML sampleMarked sampleProject ⟨some true, some true⟩) = 1 ∧
    (∀ (m : List Char → List Char) (p : Project) (o : ExportOptions),
      generateBookHTML m p o = generateBookHTML m p o) := by
  refine ⟨?_, by decide, by decide, by decide, by decide, by decide, by decide,
    fun m p o => rfl⟩
  intro m p t c
  simp only [generateBookHTML, htmlHeadPart, coverSectionHtml, tocSectionHtml,
    sectionGap, contentSectionHtml, List.append_assoc]

/-! ## Claim C6: temporary file cleanup -/

/-- C6 counterexample: on the success path the two unlink calls sit inside
the try block, so a persistent failure to delete the markdown file throws,
the catch-block cleanup fails on the same file and skips the pdf file, and
the invocation ends in an error with both temporary files still present —
the cleanup failure is propagated (despite a successful conversion) and
this exit path deletes neither file. -/
theorem cleanup_counterexample :
    pandocExportRun ⟨true, true, false, true, false, true, false, true⟩
      = (Except.error PandocError.unlinkFail, ⟨true, true⟩) := by decide

/-- C6 (amended): provided the delete operations themselves succeed, every
exit path (success; write, tool or read failure, with or without a partial
output file) ends with both temporary files absent; the outcome of the
catch-block cleanup never alters the returned result, so an error-path
cleanup failure is swallowed and never replaces the original error; and
each failing step surfaces as its own error. -/
theorem cleanup_amended :
    (∀ w x pp r : Bool,
      (pandocExportRun ⟨w, x, pp, r, true, true, true, true⟩).2 = ⟨false, false⟩) ∧
    (∀ w x pp r um up cm cp cm' cp' : Bool,
      (pandocExportRun ⟨w, x, pp, r, um, up, cm, cp⟩).1
        = (pandocExportRun ⟨w, x, pp, r, um, up, cm', cp'⟩).1) ∧
    (∀ x pp r : Bool,
      (pandocExportRun ⟨false, x, pp, r, true, true, true, true⟩).1
        = Except.error PandocError.writeFail) ∧
    (∀ pp r : Bool,
      (pandocExportRun ⟨true, false, pp, r, true, true, true, true⟩).1
        = Except.error PandocError.execFail) ∧
    (∀ pp : Bool,
      (pandocExportRun ⟨true, true, pp, false, true, true, true, true⟩).1
        = Except.error PandocError.readFail) ∧
    (∀ pp : Bool,
      (pandocExportRun ⟨true, true, pp, true, true, true, true, true⟩).1
        = Except.ok ()) := by decide

/-! ## Claim C7: artifact filenames -/

theorem mem_squashRuns (p : Char → Bool) (r : Char) :
    ∀ (l : List Char) (c : Char),
      c ∈ squashRuns p r l → c = r ∨ (c ∈ l ∧ p c = false) := by
  intro l
  induction l with
  | nil => intro c h; simp [squashRuns] at h
  | cons a t ih =>
    cases t with
    | nil =>
      intro c h
      by_cases hp : p a = true
      · simp [squashRuns, hp] at h
        exact Or.inl h
      · rw [Bool.not_eq_true] at hp
        simp [squashRuns, hp] at h
        subst h
        exact Or.inr ⟨List.mem_cons_self c [], hp⟩
    | cons b t' =>
      intro c h
      by_cases hpa : p a = true
      · by_cases hpb : p b = true
        · simp only [squashRuns, hpa, hpb, if_pos] at h
          rcases ih c h with h1 | ⟨h2, h3⟩
          · exact Or.inl h1
          · exact Or.inr ⟨List.mem_cons_of_mem a h2, h3⟩
        · simp only [squashRuns, hpa, hpb, if_pos, if_neg, Bool.not_eq_true,
            List.mem_cons] at h
          rcases h with h1 | h1
          · exact Or.inl h1
          · rcases ih c h1 with h2 | ⟨h3, h4⟩
            · exact Or.inl h2
            · exact Or.inr ⟨List.mem_cons_of_mem a h3, h4⟩
      · rw [Bool.not_eq_true] at hpa
        simp only [squashRuns, hpa, Bool.false_eq_true, if_false, List.mem_cons] at h
        rcases h with h1 | h1
        · subst h1
          exact Or.inr ⟨List.mem_cons_self c (b :: t'), hpa⟩
        · rcases ih c h1 with h2 | ⟨h3, h4⟩
          · exact Or.inl h2
          · exact Or.inr ⟨List.mem_cons_of_mem a h3, h4⟩

theorem mem_dropRightWs : ∀ (l : List Char) (c : Char), c ∈ dropRightWs l → c ∈ l := by
  intro l
  induction l with
  | nil => intro c h; simp [dropRightWs] at h
  | cons a t ih =>
    intro c h
    cases ht : dropRightWs t with
    | nil =>
      rw [show dropRightWs (a :: t) = if jsWs a then [] else [a] by
        simp [dropRightWs, ht]] at h
      by_cases hw : jsWs a = true
      · simp [hw] at h
      · rw [Bool.not_eq_true] at hw
        simp [hw] at h
        subst h
        exact List.mem_cons_self c t
    | cons d ds =>
      rw [show dropRightWs (a :: t) = a :: d :: ds by simp [dropRightWs, ht]] at h
      rcases List.mem_cons.mp h with h1 | h1
      · subst h1
        exact List.mem_cons_self c t
      · rw [← ht] at h1
        exact List.mem_cons_of_mem a (ih c h1)

theorem generateFilename_chars (t : List Char) :
    ∀ c : Char, c ∈ generateFilename t → fnChar c = true := by
  intro c hc
  simp only [generateFilename, jsTrim] at hc
  have h0 := (List.dropWhile_sublist jsWs).subset (mem_dropRightWs _ c hc)
  rcases mem_squashRuns _ _ _ c h0 with h | ⟨h2, hnd⟩
  · subst h; decide
  · rcases mem_squashRuns _ _ _ c h2 with h | ⟨h3, hnw⟩
    · subst h; decide
    · have hk : keepChar c = true := (List.mem_filter.mp h3).2
      simp only [keepChar] at hk
      rw [hnw] at hk
      simp only [fnChar]
      simpa using hk

/-- C7 counterexample: the project-server export route attaches the raw
title, not the sanitized one (`"My Book.pdf"` versus `"my-book.pdf"`), and
the sanitizer deletes a non-alphanumeric character such as `.` instead of
collapsing it to a hyphen (`"a.b"` becomes `"ab"`, not `"a-b"`). -/
theorem filename_counterexample :
    exportPdfFilename (str "My Book") = str "My Book.pdf" ∧
    generateFilename (str "My Book") = str "my-book" ∧
    exportPdfFilename (str "My Book") ≠ generateFilename (str "My Book") ++ str ".pdf" ∧
    generateFilename (str "a.b") = str "ab" ∧
    generateFilename (str "a.b") ≠ str "a-b" := by
  refine ⟨by decide, by decide, by decide, by decide, by decide⟩

/-- C7 (amended): the project-server export route attaches the raw
manuscript title plus `.pdf` or `.html`; the storage sanitizer (the
book-server's stored filename) lowercases, deletes characters other than
lowercase letters, digits, whitespace and hyphens, replaces whitespace
runs with single hyphens and collapses hyphen runs, so every character of
its output is a lowercase letter, a digit or a hyphen; leading and
trailing hyphens are kept. -/
theorem filename_amended :
    (∀ t : List Char, exportPdfFilename t = t ++ str ".pdf") ∧
    (∀ t : List Char, exportHtmlFilename t = t ++ str ".html") ∧
    (∀ (t : List Char) (c : Char), c ∈ generateFilename t → fnChar c = true) ∧
    generateFilename (str "A.B C") = str "ab-c" ∧
    generateFilename (str "  hello   world!! ") = str "-hello-world-" :=
  ⟨fun t => rfl, fun t => rfl, fun t c h => generateFilename_chars t c h,
   by decide, by decide⟩

/-- C7 witness: the character lemma applied to a concrete character of a
concrete sanitized title, together with a concrete route filename. -/
theorem filename_amended_witness :
    fnChar 'o' = true ∧ exportPdfFilename (str "T") = str "T" ++ str ".pdf" :=
  ⟨filename_amended.2.2.1 (str "My Book") 'o' (by decide),
   filename_amended.1 (str "T")⟩

end Book

